import Mathlib

/-!
Verification of the curriculum-driven prompt-optimization controller
(`dspy/train_loop.py`, `dspy/optimize.py`, `dspy/dspy_optimize.py`).

Each definition below is a shallow embedding of the corresponding Python
function; Python `int` is embedded as `Int`, Python `str` as `String`
(with the character list `String.data` standing for the sequence of code
points), and Python exceptions as `Except`.
-/

namespace Challenge

/-! ## Curriculum constants (train_loop.py, module top) -/

/-- Constant `CONSECUTIVE_CLEARS_TO_ADVANCE = 2` from train_loop.py. -/
def CONSECUTIVE_CLEARS_TO_ADVANCE : Int := 2

/-- Constant `STEP_INCREMENT = 2` from train_loop.py. -/
def STEP_INCREMENT : Int := 2

/-- Constant `MAX_STEPS = 30` from train_loop.py. -/
def MAX_STEPS : Int := 30

/-- Constant `MAX_TURNS = 300` from train_loop.py. -/
def MAX_TURNS : Int := 300

/-- Constant `MAX_CONSECUTIVE_FAILURES = 3` from train_loop.py. -/
def MAX_CONSECUTIVE_FAILURES : Int := 3

/-! ## check_curriculum (train_loop.py, lines 264-292) -/

/-- The function `check_curriculum(best_steps, step_target, consecutive_clears)`
of train_loop.py: a clear (`best_steps >= step_target`) increments the clear
counter, a non-clear resets it to 0; once the counter reaches
`CONSECUTIVE_CLEARS_TO_ADVANCE` the target is raised to
`min(step_target + STEP_INCREMENT, MAX_STEPS)`, and only when that raise is
strict does the function set `advanced` and reset the counter.
Returns `(new_step_target, new_consecutive_clears, advanced)`. -/
def check_curriculum (best_steps step_target consecutive_clears : Int) :
    Int × Int × Bool :=
  let clears := if best_steps ≥ step_target then consecutive_clears + 1 else 0
  if clears ≥ CONSECUTIVE_CLEARS_TO_ADVANCE then
    let new_target := min (step_target + STEP_INCREMENT) MAX_STEPS
    if new_target > step_target then (new_target, 0, true)
    else (new_target, clears, false)
  else (step_target, clears, false)

/-! ## Training state and the main loop (train_loop.py, run_iteration / main) -/

/-- The counters of the persisted training state of train_loop.py
(`make_fresh_state`): iteration number, current step target, consecutive
clear count and consecutive failure count. -/
structure TrainingState where
  iteration : Int
  step_target : Int
  consecutive_clears : Int
  consecutive_failures : Int
deriving DecidableEq

/-- The function `make_fresh_state(initial_target)` of train_loop.py,
restricted to the counter fields. -/
def make_fresh_state (initial_target : Int) : TrainingState :=
  { iteration := 0, step_target := initial_target,
    consecutive_clears := 0, consecutive_failures := 0 }

/-- One call of `run_iteration` of train_loop.py, abstracted to its effect on
the state counters. The batch outcome is `none` when the batch produced no
`run_*.json` output files (a crash batch, `best_steps = 0`) and `some b` when
at least one file was produced with best step count `b`: train_loop.py lines
353-357 increment `consecutive_failures` on a crash and reset it to 0
otherwise, and lines 406-409 and 484-487 apply `check_curriculum` to the
batch's best step count and store the results. -/
def run_iteration_state (s : TrainingState) (batch : Option Int) : TrainingState :=
  let failures := match batch with
    | none => s.consecutive_failures + 1
    | some _ => 0
  let best := match batch with
    | none => 0
    | some b => b
  let r := check_curriculum best s.step_target s.consecutive_clears
  { iteration := s.iteration + 1, step_target := r.1,
    consecutive_clears := r.2.1, consecutive_failures := failures }

/-- Why the main loop of train_loop.py stopped. -/
inductive ExitReason
  | maxIterations
  | trainingComplete
  | circuitBreaker
  | batchesExhausted
deriving DecidableEq

/-- The loop guards of `main` in train_loop.py (lines 546-555), checked in
order before each iteration: the `while` condition
`iteration < max_iterations`, the training-complete test
`step_target > MAX_STEPS`, and the circuit breaker
`consecutive_failures >= MAX_CONSECUTIVE_FAILURES`. -/
def haltReason (maxIter : Int) (s : TrainingState) : Option ExitReason :=
  if maxIter ≤ s.iteration then some ExitReason.maxIterations
  else if MAX_STEPS < s.step_target then some ExitReason.trainingComplete
  else if MAX_CONSECUTIVE_FAILURES ≤ s.consecutive_failures then
    some ExitReason.circuitBreaker
  else none

/-- The main loop of train_loop.py run over a list of batch outcomes supplied
by the environment: before each iteration the guards of `haltReason` are
checked, then one `run_iteration` consumes the next batch outcome. Returns
the final state, the number of iterations executed, and why the loop
stopped (`batchesExhausted` when the supplied outcomes ran out first). -/
def mainLoop (maxIter : Int) : List (Option Int) → TrainingState →
    TrainingState × Nat × ExitReason
  | [], s =>
    match haltReason maxIter s with
    | some r => (s, 0, r)
    | none => (s, 0, ExitReason.batchesExhausted)
  | b :: rest, s =>
    match haltReason maxIter s with
    | some r => (s, 0, r)
    | none =>
      let t := mainLoop maxIter rest (run_iteration_state s b)
      (t.1, t.2.1 + 1, t.2.2)

/-! ## C1: curriculum advancement -/

/-- C1 counterexample: at the difficulty ceiling the claim fails. With
`step_target = 30`, `consecutive_clears = 1` and `best_steps = 30` the
incremented counter reaches the clear threshold 2, yet `check_curriculum`
returns counter 2 (not 0) and `advanced = false` (not true), because the
capped target `min(30 + 2, 30) = 30` is not strictly above the old target. -/
theorem C1_ceiling_counterexample :
    check_curriculum 30 30 1 = (30, 2, false) ∧
    ¬ ((check_curriculum 30 30 1).2.1 = 0 ∧ (check_curriculum 30 30 1).2.2 = true) := by
  decide

/-- C1 (amended): a clear increments the counter and a non-clear resets it
to 0; when the incremented counter reaches the threshold 2 *and* the capped
target `min(step_target + 2, 30)` strictly exceeds the old target, the target
advances, the counter resets to 0 and `advanced = true`; when the old target
is already at (or beyond) the ceiling, the target stays capped, the counter
keeps its incremented value and `advanced = false`. In particular
`check_curriculum 2 2 1 = (4, 0, true)` (Scenario A). -/
theorem C1_advancement (best step_target c : Int) :
    (best < step_target → check_curriculum best step_target c = (step_target, 0, false)) ∧
    (best ≥ step_target → c + 1 < CONSECUTIVE_CLEARS_TO_ADVANCE →
      check_curriculum best step_target c = (step_target, c + 1, false)) ∧
    (best ≥ step_target → c + 1 ≥ CONSECUTIVE_CLEARS_TO_ADVANCE →
      step_target < MAX_STEPS →
      check_curriculum best step_target c =
        (min (step_target + STEP_INCREMENT) MAX_STEPS, 0, true)) ∧
    (best ≥ step_target → c + 1 ≥ CONSECUTIVE_CLEARS_TO_ADVANCE →
      MAX_STEPS ≤ step_target →
      check_curriculum best step_target c =
        (min (step_target + STEP_INCREMENT) MAX_STEPS, c + 1, false)) ∧
    check_curriculum 2 2 1 = (4, 0, true) := by
  simp only [check_curriculum, CONSECUTIVE_CLEARS_TO_ADVANCE, STEP_INCREMENT, MAX_STEPS]
  refine ⟨?_, ?_, ?_, ?_, by decide⟩
  · intro h
    rw [if_neg (by omega), if_neg (by omega)]
  · intro h hc
    rw [if_pos h, if_neg (by omega)]
  · intro h hc ht
    rw [if_pos h, if_pos (by omega), if_pos (by rw [min_def]; split <;> omega)]
  · intro h hc ht
    rw [if_pos h, if_pos (by omega), if_neg (by rw [min_def]; split <;> omega)]

/-- C1 witness: the four branches of `C1_advancement` evaluated at concrete
inputs, including Scenario A (`target = 2`, one prior clear, `best = 2`
advances to target 4) and the at-ceiling case. -/
theorem C1_advancement_witness :
    check_curriculum 1 2 0 = (2, 0, false) ∧
    check_curriculum 5 2 0 = (2, 0 + 1, false) ∧
    check_curriculum 2 2 1 = (min (2 + STEP_INCREMENT) MAX_STEPS, 0, true) ∧
    check_curriculum 30 30 1 = (min (30 + STEP_INCREMENT) MAX_STEPS, 1 + 1, false) :=
  ⟨(C1_advancement 1 2 0).1 (by decide),
   (C1_advancement 5 2 0).2.1 (by decide) (by decide),
   (C1_advancement 2 2 1).2.2.1 (by decide) (by decide) (by decide),
   (C1_advancement 30 30 1).2.2.2.1 (by decide) (by decide) (by decide)⟩

/-! ## C2: consecutive-failure circuit breaker -/

/-- C2: with failure threshold `MAX_CONSECUTIVE_FAILURES = 3`, a crash batch
(no run output files) increments the consecutive-failure counter by 1 and a
batch with at least one run output file resets it to 0; the main loop, when
its iteration cap and training-complete guards pass, halts before starting a
new iteration exactly when the counter has reached 3; and on an all-crash
run from a fresh state the controller executes exactly 3 iterations (the
first two crash batches do not halt it, the third does, reported as the
circuit breaker), while two crash batches alone leave it still running. -/
theorem C2_circuit_breaker (s : TrainingState) (b : Int) (maxIter : Int)
    (batch : Option Int) (rest : List (Option Int)) :
    ((run_iteration_state s none).consecutive_failures = s.consecutive_failures + 1) ∧
    ((run_iteration_state s (some b)).consecutive_failures = 0) ∧
    (s.iteration < maxIter → s.step_target ≤ MAX_STEPS →
      ((mainLoop maxIter (batch :: rest) s).2.1 = 0 ↔
        MAX_CONSECUTIVE_FAILURES ≤ s.consecutive_failures)) ∧
    mainLoop 100 [none, none, none, none] (make_fresh_state 2) =
      (⟨3, 2, 0, 3⟩, 3, ExitReason.circuitBreaker) ∧
    mainLoop 100 [none, none] (make_fresh_state 2) =
      (⟨2, 2, 0, 2⟩, 2, ExitReason.batchesExhausted) := by
  refine ⟨rfl, rfl, ?_, by decide, by decide⟩
  intro h1 h2
  simp only [mainLoop, haltReason]
  rw [if_neg (by omega), if_neg (by omega)]
  by_cases h3 : MAX_CONSECUTIVE_FAILURES ≤ s.consecutive_failures
  · rw [if_pos h3]
    simpa using h3
  · rw [if_neg h3]
    simp only []
    constructor
    · intro h
      exact absurd h (by omega)
    · intro h
      exact absurd h h3

/-- C2 witness: the halting characterization of `C2_circuit_breaker` applied
to the fresh state (counter 0, loop does not halt: it consumes the batch) and
to a state whose failure counter has already reached 3 (loop executes no
iteration). -/
theorem C2_circuit_breaker_witness :
    ((mainLoop 100 [none] (make_fresh_state 2)).2.1 = 0 ↔
      MAX_CONSECUTIVE_FAILURES ≤ (make_fresh_state 2).consecutive_failures) ∧
    ((mainLoop 100 [none] (⟨3, 2, 0, 3⟩ : TrainingState)).2.1 = 0 ↔
      MAX_CONSECUTIVE_FAILURES ≤ (⟨3, 2, 0, 3⟩ : TrainingState).consecutive_failures) :=
  ⟨(C2_circuit_breaker (make_fresh_state 2) 0 100 none []).2.2.1
      (by decide) (by decide),
   (C2_circuit_breaker (⟨3, 2, 0, 3⟩ : TrainingState) 0 100 none []).2.2.1
      (by decide) (by decide)⟩

/-! ## C10: the step target never exceeds the ceiling -/

/-- Helper: when the current step target is within the ceiling, the guards of
the main loop never report training-complete. -/
theorem haltReason_ne_complete (maxIter : Int) (s : TrainingState)
    (h : s.step_target ≤ MAX_STEPS) :
    haltReason maxIter s ≠ some ExitReason.trainingComplete := by
  unfold haltReason
  split
  · decide
  · split
    · exfalso; omega
    · split
      · decide
      · decide

/-- Helper: the new target returned by `check_curriculum` lies between the
old target and the ceiling whenever the old target is within the ceiling. -/
theorem check_curriculum_target_bounds (b t c : Int) (h : t ≤ MAX_STEPS) :
    t ≤ (check_curriculum b t c).1 ∧ (check_curriculum b t c).1 ≤ MAX_STEPS := by
  simp only [MAX_STEPS] at h ⊢
  simp only [check_curriculum, CONSECUTIVE_CLEARS_TO_ADVANCE, STEP_INCREMENT, MAX_STEPS]
  by_cases hb : b ≥ t
  · rw [if_pos hb]
    by_cases hc : c + 1 ≥ (2 : Int)
    · rw [if_pos hc]
      by_cases ht : min (t + 2) (30 : Int) > t
      · rw [if_pos ht]
        exact ⟨le_min (by omega) h, min_le_right _ _⟩
      · rw [if_neg ht]
        exact ⟨le_min (by omega) h, min_le_right _ _⟩
    · rw [if_neg hc]
      exact ⟨le_refl _, h⟩
  · rw [if_neg hb]
    rw [if_neg (by omega : ¬ (0 : Int) ≥ 2)]
    exact ⟨le_refl _, h⟩

/-- C10: for every input target at most `MAX_STEPS = 30`, `check_curriculum`
returns a new target between the old target and 30; hence across iterations
the step target is non-decreasing and never exceeds 30, and the main loop
never exits through the training-complete test `step_target > MAX_STEPS`. -/
theorem C10_target_bounded (best t c : Int) (s : TrainingState) (b : Option Int)
    (maxIter : Int) (batches : List (Option Int)) :
    (t ≤ MAX_STEPS →
      t ≤ (check_curriculum best t c).1 ∧ (check_curriculum best t c).1 ≤ MAX_STEPS) ∧
    (s.step_target ≤ MAX_STEPS →
      s.step_target ≤ (run_iteration_state s b).step_target ∧
      (run_iteration_state s b).step_target ≤ MAX_STEPS) ∧
    (s.step_target ≤ MAX_STEPS →
      (mainLoop maxIter batches s).2.2 ≠ ExitReason.trainingComplete ∧
      (mainLoop maxIter batches s).1.step_target ≤ MAX_STEPS) := by
  have iter : ∀ (s' : TrainingState) (b' : Option Int), s'.step_target ≤ MAX_STEPS →
      s'.step_target ≤ (run_iteration_state s' b').step_target ∧
      (run_iteration_state s' b').step_target ≤ MAX_STEPS := by
    intro s' b' h
    exact check_curriculum_target_bounds _ s'.step_target s'.consecutive_clears h
  refine ⟨check_curriculum_target_bounds best t c, iter s b, ?_⟩
  induction batches generalizing s with
  | nil =>
    intro h
    simp only [mainLoop]
    cases hr : haltReason maxIter s with
    | none =>
      refine ⟨?_, h⟩
      intro he
      exact absurd
        (show ExitReason.batchesExhausted = ExitReason.trainingComplete from he)
        (by decide)
    | some r =>
      have hne := haltReason_ne_complete maxIter s h
      rw [hr] at hne
      refine ⟨?_, h⟩
      intro he
      exact hne (congrArg some (show r = ExitReason.trainingComplete from he))
  | cons hd tl ih =>
    intro h
    simp only [mainLoop]
    cases hr : haltReason maxIter s with
    | none =>
      have hnext := (iter s hd h).2
      exact ih (run_iteration_state s hd) hnext
    | some r =>
      have hne := haltReason_ne_complete maxIter s h
      rw [hr] at hne
      refine ⟨?_, h⟩
      intro he
      exact hne (congrArg some (show r = ExitReason.trainingComplete from he))

/-- C10 witness: the bound theorem applied at concrete inputs — an advancing
call from target 2, one crash iteration from a fresh state, and a short
concrete run (one clear batch then one crash batch) that ends with target 2
and an exit reason other than training-complete. -/
theorem C10_target_bounded_witness :
    ((2 : Int) ≤ (check_curriculum 5 2 1).1 ∧ (check_curriculum 5 2 1).1 ≤ MAX_STEPS) ∧
    ((mainLoop 100 [some 2, none] (make_fresh_state 2)).2.2 ≠
        ExitReason.trainingComplete ∧
      (mainLoop 100 [some 2, none] (make_fresh_state 2)).1.step_target ≤ MAX_STEPS) :=
  ⟨(C10_target_bounded 5 2 1 (make_fresh_state 2) none 100 []).1 (by decide),
   (C10_target_bounded 5 2 1 (make_fresh_state 2) none 100
      [some 2, none]).2.2 (by decide)⟩

/-! ## The meta-prompt guard and prompt write of run_iteration
(train_loop.py, lines 439-451) -/

/-- Python `s.lower()`: every character lowercased. -/
def pyLower (s : String) : String := String.mk (s.data.map Char.toLower)

/-- Python `s[:n]`: the first `n` characters of `s`. -/
def pyTake (s : String) (n : Nat) : String := String.mk (s.data.take n)

/-- Containment of one character list inside another: `pat` occurs as a
contiguous run of `s`. -/
def listContains (pat : List Char) : List Char → Bool
  | [] => pat.isEmpty
  | c :: rest => pat.isPrefixOf (c :: rest) || listContains pat rest

/-- Python `pat in hay`: substring containment. -/
def pyContains (hay pat : String) : Bool := listContains pat.data hay.data

/-- The denylist `bad_patterns` of train_loop.py line 442. -/
def bad_patterns : List String :=
  ["generate an optimized", "output only the optimized", "format: output"]

/-- The guard `is_meta_prompt` of train_loop.py line 443:
`any(p in optimized_prompt.lower()[:200] for p in bad_patterns)`. -/
def is_meta_prompt (optimized_prompt : String) : Bool :=
  bad_patterns.any (fun p => pyContains (pyTake (pyLower optimized_prompt) 200) p)

/-- The content of the live artifact file SYSTEM.md after step 8 of
`run_iteration` (train_loop.py lines 439-451), as a function of its content
before the iteration (`none` when the file does not exist, in which case
`previous_prompt = ""`) and of the optimization output: a candidate matching
the meta-prompt denylist is replaced by the previous prompt, and the file is
rewritten only when the resulting candidate is non-empty and differs from the
previous prompt. -/
def iterationFileContent (file : Option String) (optimized_prompt : String) :
    Option String :=
  let previous := file.getD ""
  let opt := if is_meta_prompt optimized_prompt then previous else optimized_prompt
  if opt ≠ "" ∧ opt ≠ previous then some opt else file

/-- The file-system events of step 8 of `run_iteration` in order:
`backup_prompt` (train_loop.py lines 111-118) copies the live file into the
history directory when it exists, then the live file is rewritten when the
guarded candidate is non-empty and differs from the previous content. -/
inductive PromptFsEvent
  | backupCopy (content : String)
  | writeLive (content : String)
deriving DecidableEq

/-- The ordered list of file-system events step 8 of `run_iteration`
performs on the live artifact and its history directory. -/
def promptUpdateEvents (file : Option String) (optimized_prompt : String) :
    List PromptFsEvent :=
  let previous := file.getD ""
  let backups := match file with
    | some c => [PromptFsEvent.backupCopy c]
    | none => []
  let opt := if is_meta_prompt optimized_prompt then previous else optimized_prompt
  let writes := if opt ≠ "" ∧ opt ≠ previous then [PromptFsEvent.writeLive opt] else []
  backups ++ writes

/-! ## C3: denylisted candidates are rejected and the artifact kept -/

/-- C3: whenever the optimization output's leading 200 characters
(lowercased) contain one of the denylisted meta phrases, the candidate is
rejected and the live artifact file's content after the iteration equals its
content before the iteration. -/
theorem C3_meta_prompt_rejected (file : Option String) (optimized_prompt : String)
    (h : is_meta_prompt optimized_prompt = true) :
    iterationFileContent file optimized_prompt = file := by
  unfold iterationFileContent
  rw [h]
  simp

/-- C3 witness: a candidate that begins with the denylisted phrase
"Generate an optimized ..." is rejected and the previous artifact content
"old prompt" is retained (Scenario D). -/
theorem C3_meta_prompt_rejected_witness :
    iterationFileContent (some "old prompt")
      "Generate an optimized system prompt for the agent." = some "old prompt" :=
  C3_meta_prompt_rejected (some "old prompt")
    "Generate an optimized system prompt for the agent." (by decide)

/-! ## C4: the previous artifact is backed up before every write -/

/-- C4: in every iteration, on every path on which step 8 writes a new
version of the live artifact file, the write is preceded in the event order
by a backup copy of the file's previous content into the history directory:
the controller never overwrites an existing live artifact without first
backing up its content. -/
theorem C4_backup_before_write (prev optimized_prompt : String) (i : Nat)
    (c : String)
    (h : (promptUpdateEvents (some prev) optimized_prompt).get? i =
      some (PromptFsEvent.writeLive c)) :
    ∃ j, j < i ∧ (promptUpdateEvents (some prev) optimized_prompt).get? j =
      some (PromptFsEvent.backupCopy prev) := by
  refine ⟨0, ?_, ?_⟩
  · rcases i with _ | i
    · exfalso
      have : PromptFsEvent.backupCopy prev = PromptFsEvent.writeLive c := by
        unfold promptUpdateEvents at h
        set_option linter.unnecessarySimpa false in
        simpa using h
      exact absurd this (by simp)
    · exact Nat.succ_pos i
  · unfold promptUpdateEvents
    simp

/-- C4 witness: with previous content "old prompt" and a fresh non-meta
candidate, the write event at index 1 is preceded by the backup event at
index 0. -/
theorem C4_backup_before_write_witness :
    ∃ j, j < 1 ∧ (promptUpdateEvents (some "old prompt") "new prompt").get? j =
      some (PromptFsEvent.backupCopy "old prompt") :=
  C4_backup_before_write "old prompt" "new prompt" 1 "new prompt" (by decide)

/-! ## C5: the resource budget is never recomputed -/

/-- The per-trial turn budget actually granted by `_run_single_agent`
(train_loop.py lines 169-191): the environment entry `MAX_TURNS` is the
module constant 300, whatever the current step target is, and
`check_curriculum` returns no budget at all. -/
def agentTurnBudget (_step_target : Int) : Int := MAX_TURNS

/-- Modelled from the spec: the budget law stated by the train_loop.py module
docstring and by the specification — "Turn budget scales with the step target
(10 turns per target step, min 30)" — which the implementation does not
compute anywhere. -/
def docstringTurnBudget (step_target : Int) : Int := max 30 (10 * step_target)

/-- C5: the implementation contradicts its own module docstring. The budget
granted to every trial is the constant 300 — it is not recomputed when the
target changes (every target gets the budget of target 2) — whereas the
documented law gives 40 turns at target 4. -/
theorem C5_budget_never_recomputed :
    (∀ step_target : Int, agentTurnBudget step_target = 300) ∧
    (∀ step_target : Int, agentTurnBudget step_target = agentTurnBudget 2) ∧
    agentTurnBudget 4 = 300 ∧
    docstringTurnBudget 4 = 40 := by
  refine ⟨fun _ => rfl, fun _ => rfl, rfl, by decide⟩

/-! ## The trajectory parser (optimize.py, extract_rollout_steps, lines 113-151) -/

/-- One content block of a transcript message: a text block, a tool-use block
(tool name and stringified input), a tool-result block whose content is a
string (`some`) or some other JSON shape (`none`, skipped by the parser), or
any other block type. -/
inductive Block
  | text (t : String)
  | toolUse (toolName toolInput : String)
  | toolResult (resultContent : Option String)
  | other
deriving DecidableEq

/-- The `content` field of a transcript message: either a plain string or a
list of typed blocks; the parser only folds list-shaped content. -/
inductive MsgContent
  | str (s : String)
  | blocks (bs : List Block)
deriving DecidableEq

/-- A transcript message: a role and a content payload. -/
structure Msg where
  role : String
  content : MsgContent
deriving DecidableEq

/-- The open turn buffer `current_step` of `extract_rollout_steps`:
accumulated reasoning text, tool calls and tool-result strings. -/
structure Step where
  agent_text : List String
  tool_calls : List (String × String)
  tool_results : List String
deriving DecidableEq

/-- The fresh turn buffer `{"agent_text": [], "tool_calls": [], "tool_results": []}`. -/
def emptyStep : Step := ⟨[], [], []⟩

/-- Folding one assistant content block (optimize.py lines 122-133): a text
block appends reasoning, a tool-use block appends a call, the rest is skipped. -/
def processAssistantBlock (s : Step) (b : Block) : Step :=
  match b with
  | Block.text t => { s with agent_text := s.agent_text ++ [t] }
  | Block.toolUse n i => { s with tool_calls := s.tool_calls ++ [(n, i)] }
  | _ => s

/-- Folding one user content block (optimize.py lines 135-140): a tool-result
block whose content is a string appends it to the turn's results; anything
else is skipped. -/
def processUserBlock (s : Step) (b : Block) : Step :=
  match b with
  | Block.toolResult (some c) => { s with tool_results := s.tool_results ++ [c] }
  | _ => s

/-- One message of `extract_rollout_steps`'s fold (optimize.py lines 118-145):
an assistant message with list content folds its blocks into the open turn; a
user message with list content folds its tool results and then — when the
open turn has at least one recorded tool call — seals the turn and starts a
fresh buffer; every other message leaves the state unchanged. -/
def stepMsg (acc : List Step × Step) (m : Msg) : List Step × Step :=
  if m.role = "assistant" then
    match m.content with
    | MsgContent.blocks bs => (acc.1, bs.foldl processAssistantBlock acc.2)
    | _ => acc
  else if m.role = "user" then
    match m.content with
    | MsgContent.blocks bs =>
      let cur := bs.foldl processUserBlock acc.2
      if cur.tool_calls = [] then (acc.1, cur) else (acc.1 ++ [cur], emptyStep)
    | _ => acc
  else acc

/-- The function `extract_rollout_steps(transcript_data)` of optimize.py
(lines 113-151): fold the messages in order and seal any trailing open turn
that still holds pending tool calls. -/
def extract_rollout_steps (msgs : List Msg) : List Step :=
  let r := msgs.foldl stepMsg ([], emptyStep)
  if r.2.tool_calls = [] then r.1 else r.1 ++ [r.2]

/-- Error classification of `analyze_trajectories` (optimize.py line 488):
a tool-result string is an error when its lowercasing contains the
failure marker "error". -/
def resultIsError (r : String) : Bool := pyContains (pyLower r) "error"

/-- The error entries of one turn (optimize.py line 488). -/
def stepErrors (s : Step) : List String :=
  s.tool_results.filter (fun r => resultIsError r)

/-- The status tag of one turn (optimize.py line 492): FAIL when the turn has
at least one error entry, OK otherwise. -/
def stepStatus (s : Step) : String := if stepErrors s ≠ [] then "FAIL" else "OK"

/-- Helper: folding user content blocks never changes the turn's recorded
tool calls (tool-result blocks only append to `tool_results`). -/
theorem foldl_processUserBlock_tool_calls (bs : List Block) (s : Step) :
    (bs.foldl processUserBlock s).tool_calls = s.tool_calls := by
  induction bs generalizing s with
  | nil => rfl
  | cons b rest ih =>
    rw [List.foldl_cons, ih]
    cases b with
    | toolResult c => cases c <;> rfl
    | text t => rfl
    | toolUse n i => rfl
    | other => rfl

/-- Scenario C log: one assistant message opening a turn with two tool calls,
then a tool-result batch holding exactly one string that contains the
failure marker. -/
def scenarioCLog : List Msg :=
  [{ role := "assistant",
     content := MsgContent.blocks
       [Block.text "working", Block.toolUse "browser_snapshot" "page",
        Block.toolUse "browser_action" "click"] },
   { role := "user",
     content := MsgContent.blocks
       [Block.toolResult (some "Error: ref e5 not found")] }]

/-- The turn record Scenario C produces. -/
def scenarioCTurn : Step :=
  { agent_text := ["working"],
    tool_calls := [("browser_snapshot", "page"), ("browser_action", "click")],
    tool_results := ["Error: ref e5 not found"] }

/-- A log ending in an open turn: one assistant message with a pending tool
call and no closing tool-result batch. -/
def trailingLog : List Msg :=
  [{ role := "assistant",
     content := MsgContent.blocks [Block.toolUse "browser_navigate" "url"] }]

/-- The turn sealed at end-of-log from `trailingLog`. -/
def trailingTurn : Step :=
  { agent_text := [], tool_calls := [("browser_navigate", "url")],
    tool_results := [] }

/-! ## C7: turn sealing -/

/-- C7: the fold seals a turn (the sealed list grows, necessarily by one)
exactly when the incoming message is a tool-result batch — a user message
with list content — and the open turn has at least one recorded tool call;
a trailing open turn with pending tool calls is sealed at end-of-log; and on
the Scenario C log the resulting turn record has 2 tool calls, 1 error entry
and status FAIL. -/
theorem C7_turn_sealing (acc : List Step × Step) (m : Msg) :
    ((stepMsg acc m).1.length = acc.1.length + 1 ↔
      (m.role = "user" ∧ (∃ bs, m.content = MsgContent.blocks bs) ∧
        acc.2.tool_calls ≠ [])) ∧
    extract_rollout_steps scenarioCLog = [scenarioCTurn] ∧
    scenarioCTurn.tool_calls.length = 2 ∧
    (stepErrors scenarioCTurn).length = 1 ∧
    stepStatus scenarioCTurn = "FAIL" ∧
    extract_rollout_steps trailingLog = [trailingTurn] := by
  refine ⟨?_, by decide, by decide, by decide, by decide, by decide⟩
  obtain ⟨role, content⟩ := m
  by_cases h1 : role = "assistant"
  · subst h1
    cases content with
    | str s => simp [stepMsg, show ("assistant" : String) ≠ "user" by decide]
    | blocks bs => simp [stepMsg, show ("assistant" : String) ≠ "user" by decide]
  · by_cases h2 : role = "user"
    · subst h2
      cases content with
      | str s => simp [stepMsg, h1]
      | blocks bs =>
        by_cases h3 : acc.2.tool_calls = [] <;>
          simp [stepMsg, h1, foldl_processUserBlock_tool_calls, h3]
    · cases content with
      | str s => simp [stepMsg, h1, h2]
      | blocks bs => simp [stepMsg, h1, h2]

/-! ## C9: the parser is deterministic -/

/-- C9: `extract_rollout_steps` is a pure function of its input message
list — the embedded parser reads nothing but its argument — so parsing the
same raw log twice yields identical turn-record sequences. -/
theorem C9_parse_deterministic (log1 log2 : List Msg) (h : log1 = log2) :
    extract_rollout_steps log1 = extract_rollout_steps log2 := by
  rw [h]

/-- C9 witness: parsing the Scenario C log twice yields the same sequence. -/
theorem C9_parse_deterministic_witness :
    extract_rollout_steps scenarioCLog = extract_rollout_steps scenarioCLog :=
  C9_parse_deterministic scenarioCLog scenarioCLog rfl

/-! ## The digest cap (dspy_optimize.py, build_trainset, lines 184-199) -/

/-- The hard ceiling 50000 of `build_trainset` in dspy_optimize.py
(`if len(analysis) > 50000`). -/
def ANALYSIS_CAP : Nat := 50000

/-- The truncation marker appended by `build_trainset`
(`"\n... (truncated)"`). -/
def TRUNCATION_MARKER : String := "\n... (truncated)"

/-- The digest cap of `build_trainset` (dspy_optimize.py lines 191-193):
an assembled rollout analysis longer than the ceiling is replaced by its
first 50000 characters followed by the truncation marker. -/
def capAnalysis (analysis : String) : String :=
  if analysis.length > ANALYSIS_CAP then
    String.mk (analysis.data.take ANALYSIS_CAP ++ TRUNCATION_MARKER.data)
  else analysis

/-- A concrete assembled digest one character over the ceiling. -/
def longAnalysis : String := String.mk (List.replicate 50001 'a')

/-- Helper: the truncation marker is 16 characters long. -/
theorem truncation_marker_length : TRUNCATION_MARKER.data.length = 16 := rfl

/-! ## C6: the capped digest length and marker -/

/-- C6 counterexample: the claim that the assembled digest never exceeds the
configured ceiling fails — on a 50001-character digest the cap keeps the
first 50000 characters *and then appends* the 16-character marker, so the
capped digest has 50016 characters, exceeding the 50000 ceiling. -/
theorem C6_cap_exceeded_counterexample :
    ANALYSIS_CAP < (capAnalysis longAnalysis).length := by
  have hlen : longAnalysis.length = 50001 := by
    show (List.replicate 50001 'a').length = 50001
    rw [List.length_replicate]
  unfold capAnalysis
  rw [if_pos (by rw [hlen]; decide)]
  show ANALYSIS_CAP < (longAnalysis.data.take ANALYSIS_CAP ++ TRUNCATION_MARKER.data).length
  rw [List.length_append, List.length_take, truncation_marker_length]
  have hdata : longAnalysis.data.length = 50001 := hlen
  rw [hdata]
  decide

/-- C6 (amended): the capped digest's length never exceeds the ceiling *plus
the marker length* (50016 characters); whenever truncation occurs the capped
digest ends with the explicit truncation marker and its first 50000
characters are exactly the first 50000 characters of the original digest
(the tail is truncated, the earliest content preserved). -/
theorem C6_cap_bounds (analysis : String) :
    ((capAnalysis analysis).length ≤ ANALYSIS_CAP + TRUNCATION_MARKER.data.length) ∧
    (analysis.length > ANALYSIS_CAP →
      TRUNCATION_MARKER.data <:+ (capAnalysis analysis).data ∧
      (capAnalysis analysis).data.take ANALYSIS_CAP =
        analysis.data.take ANALYSIS_CAP) := by
  unfold capAnalysis
  by_cases h : analysis.length > ANALYSIS_CAP
  · rw [if_pos h]
    refine ⟨?_, fun _ => ⟨⟨analysis.data.take ANALYSIS_CAP, rfl⟩, ?_⟩⟩
    · show (analysis.data.take ANALYSIS_CAP ++ TRUNCATION_MARKER.data).length ≤
        ANALYSIS_CAP + TRUNCATION_MARKER.data.length
      rw [List.length_append, List.length_take]
      exact Nat.add_le_add_right (Nat.min_le_left _ _) _
    · show (analysis.data.take ANALYSIS_CAP ++ TRUNCATION_MARKER.data).take
        ANALYSIS_CAP = analysis.data.take ANALYSIS_CAP
      rw [List.take_append_eq_append_take, List.take_take, List.length_take]
      have h2 : ANALYSIS_CAP - min ANALYSIS_CAP analysis.data.length = 0 := by
        have hd : analysis.data.length = analysis.length := rfl
        rw [hd]
        omega
      rw [Nat.min_self, h2, List.take_zero, List.append_nil]
  · rw [if_neg h]
    refine ⟨?_, fun hc => absurd hc h⟩
    rw [truncation_marker_length]
    omega

/-- C6 witness: the amended bound evaluated on the 50001-character digest —
its capped form carries the truncation marker as a suffix and preserves the
original first 50000 characters. -/
theorem C6_cap_bounds_witness :
    TRUNCATION_MARKER.data <:+ (capAnalysis longAnalysis).data ∧
    (capAnalysis longAnalysis).data.take ANALYSIS_CAP =
      longAnalysis.data.take ANALYSIS_CAP :=
  (C6_cap_bounds longAnalysis).2
    (by show 50000 < (List.replicate 50001 'a').length
        rw [List.length_replicate]
        decide)

/-! ## The judge metric (dspy_optimize.py, make_prompt_metric, lines 102-164) -/

/-- The regex class `\d` restricted to ASCII digits. -/
def pyIsDigit (c : Char) : Bool := '0' ≤ c && c ≤ '9'

/-- The regex class `\s` restricted to ASCII whitespace. -/
def pyIsSpace (c : Char) : Bool :=
  c = ' ' || c = '\t' || c = '\n' || c = '\r' || c = '\x0b' || c = '\x0c'

/-- One character of the regex class `[\d.]`. -/
def isScoreChar (c : Char) : Bool := pyIsDigit c || c = '.'

/-- A match of the pattern `CRITERION:\s*([\d.]+)` anchored at the start of
`s`: the criterion name, a colon, maximal whitespace, then a maximal
nonempty run of digits and dots — the captured group. -/
def matchScoreAt (crit : List Char) (s : List Char) : Option (List Char) :=
  if (crit ++ [':']).isPrefixOf s then
    let rest := (s.drop (crit.length + 1)).dropWhile pyIsSpace
    let run := rest.takeWhile isScoreChar
    if run = [] then none else some run
  else none

/-- `re.search(rf"{c}:\s*([\d.]+)", eval_text)` (dspy_optimize.py line 139):
the captured group at the leftmost position where the full pattern matches. -/
def searchScoreRun (crit : List Char) : List Char → Option (List Char)
  | [] => none
  | c :: rest =>
    match matchScoreAt crit (c :: rest) with
    | some run => some run
    | none => searchScoreRun crit rest

/-- The numeric value of a list of ASCII digits. -/
def digitsVal (ds : List Char) : Nat :=
  ds.foldl (fun a c => a * 10 + (c.toNat - '0'.toNat)) 0

/-- Python `float()` on a captured `[\d.]+` group: defined (as a rational)
exactly when the group holds at least one digit and at most one dot;
otherwise (e.g. on "." or "1.2.3") `float()` raises ValueError. -/
def parseFloatRun (run : List Char) : Option ℚ :=
  if run.any pyIsDigit ∧ run.count '.' ≤ 1 then
    let intPart := run.takeWhile (fun c => c ≠ '.')
    let fracPart := (run.dropWhile (fun c => c ≠ '.')).drop 1
    some ((digitsVal intPart : ℚ) + (digitsVal fracPart : ℚ) / ((10 : ℚ) ^ fracPart.length))
  else none

/-- The criteria of `make_prompt_metric` (dspy_optimize.py lines 133-136). -/
def criteriaList : List String :=
  ["FAILURE_COVERAGE", "PATTERN_PRESERVATION", "NO_HARDCODED", "EFFICIENCY", "SPEED"]

/-- The fixed weights of `make_prompt_metric` (dspy_optimize.py lines
146-152). -/
def weightOf (c : String) : ℚ :=
  if c = "FAILURE_COVERAGE" then 30 / 100
  else if c = "PATTERN_PRESERVATION" then 20 / 100
  else if c = "NO_HARDCODED" then 10 / 100
  else if c = "EFFICIENCY" then 25 / 100
  else if c = "SPEED" then 15 / 100
  else 0

/-- The clamp `min(1.0, max(0.0, x))` of dspy_optimize.py line 141. -/
def clampScore (x : ℚ) : ℚ := min 1 (max 0 x)

/-- The score of a captured token: `float()` either raises (`Except.error`,
uncaught in the metric) or yields a value clamped into `[0, 1]`. -/
def scoreOfRun (run : List Char) : Except Unit ℚ :=
  match parseFloatRun run with
  | none => Except.error ()
  | some x => Except.ok (clampScore x)

/-- The per-criterion score of `make_prompt_metric` (dspy_optimize.py lines
138-143): a criterion whose pattern finds no score token defaults to 1/2;
a found token goes through `float()` and the clamp. -/
def criterionScore (evalText : List Char) (c : String) : Except Unit ℚ :=
  match searchScoreRun c.data evalText with
  | none => Except.ok (1 / 2)
  | some run => scoreOfRun run

/-- The weighted combined score of `make_prompt_metric` (dspy_optimize.py
line 153): the sum over the five criteria of score times weight; an
exception in any criterion's `float()` aborts the whole metric call. -/
def combinedJudgeScore (evalText : List Char) : Except Unit ℚ :=
  match criterionScore evalText "FAILURE_COVERAGE",
      criterionScore evalText "PATTERN_PRESERVATION",
      criterionScore evalText "NO_HARDCODED",
      criterionScore evalText "EFFICIENCY",
      criterionScore evalText "SPEED" with
  | Except.ok s1, Except.ok s2, Except.ok s3, Except.ok s4, Except.ok s5 =>
    Except.ok (s1 * weightOf "FAILURE_COVERAGE" +
      s2 * weightOf "PATTERN_PRESERVATION" + s3 * weightOf "NO_HARDCODED" +
      s4 * weightOf "EFFICIENCY" + s5 * weightOf "SPEED")
  | _, _, _, _, _ => Except.error ()

/-! ## C8: judge score parsing and bounds -/

/-- C8 counterexample: a judge response whose FAILURE_COVERAGE token is "."
is matched by the regex, but `float(".")` raises, so the criterion does not
default to the neutral 0.5 — the whole metric call fails instead of
defaulting. -/
theorem C8_unparseable_raises_counterexample :
    criterionScore ("FAILURE_COVERAGE: .").data "FAILURE_COVERAGE" =
      Except.error () ∧
    combinedJudgeScore ("FAILURE_COVERAGE: .").data = Except.error () := by
  constructor <;> rfl

/-- Helper: any successfully returned criterion score lies in `[0, 1]` (the
missing-token default 1/2 or a clamped parsed value). -/
theorem criterionScore_bounds (t : List Char) (name : String) (s : ℚ)
    (hs : criterionScore t name = Except.ok s) : 0 ≤ s ∧ s ≤ 1 := by
  unfold criterionScore at hs
  split at hs
  · simp only [Except.ok.injEq] at hs
    subst hs
    norm_num
  · unfold scoreOfRun at hs
    split at hs
    · exact absurd hs (by simp)
    · simp only [Except.ok.injEq] at hs
      subst hs
      unfold clampScore
      exact ⟨le_min (by norm_num) (le_max_left 0 _), min_le_left 1 _⟩

/-- Helper: the five weights evaluated. -/
theorem weights_list_eval :
    criteriaList.map weightOf = [30 / 100, 20 / 100, 10 / 100, 25 / 100, 15 / 100] := by
  have w1 : weightOf "FAILURE_COVERAGE" = 30 / 100 := rfl
  have w2 : weightOf "PATTERN_PRESERVATION" = 20 / 100 := rfl
  have w3 : weightOf "NO_HARDCODED" = 10 / 100 := rfl
  have w4 : weightOf "EFFICIENCY" = 25 / 100 := rfl
  have w5 : weightOf "SPEED" = 15 / 100 := rfl
  unfold criteriaList
  simp only [List.map_cons, List.map_nil]
  rw [w1, w2, w3, w4, w5]

/-- Helper: the weights sum to 1. -/
theorem weights_sum_one : (criteriaList.map weightOf).sum = 1 := by
  rw [weights_list_eval]
  simp only [List.sum_cons, List.sum_nil]
  norm_num

/-- Helper: every weight is positive. -/
theorem weights_positive : ∀ w ∈ criteriaList.map weightOf, 0 < w := by
  rw [weights_list_eval]
  intro w hw
  simp only [List.mem_cons, List.not_mem_nil, or_false] at hw
  rcases hw with rfl | rfl | rfl | rfl | rfl <;> norm_num

/-- C8 (amended): a criterion whose pattern finds no score token defaults to
the neutral 1/2 (whereas a matched token that is no valid float raises, see
the counterexample); the per-criterion weights are fixed positive constants
summing to 1; and whenever the metric returns a combined score at all, that
score lies in `[0, 1]`. -/
theorem C8_judge_score_bounds (evalText : List Char) (c : String) (q : ℚ) :
    (searchScoreRun c.data evalText = none →
      criterionScore evalText c = Except.ok (1 / 2)) ∧
    (criteriaList.map weightOf).sum = 1 ∧
    (∀ w ∈ criteriaList.map weightOf, 0 < w) ∧
    (combinedJudgeScore evalText = Except.ok q → 0 ≤ q ∧ q ≤ 1) := by
  refine ⟨?_, weights_sum_one, weights_positive, ?_⟩
  · intro h
    unfold criterionScore
    rw [h]
  · intro h
    unfold combinedJudgeScore at h
    cases h1 : criterionScore evalText "FAILURE_COVERAGE" with
    | error e => rw [h1] at h; exact absurd h (by simp)
    | ok s1 =>
    cases h2 : criterionScore evalText "PATTERN_PRESERVATION" with
    | error e => rw [h1, h2] at h; exact absurd h (by simp)
    | ok s2 =>
    cases h3 : criterionScore evalText "NO_HARDCODED" with
    | error e => rw [h1, h2, h3] at h; exact absurd h (by simp)
    | ok s3 =>
    cases h4 : criterionScore evalText "EFFICIENCY" with
    | error e => rw [h1, h2, h3, h4] at h; exact absurd h (by simp)
    | ok s4 =>
    cases h5 : criterionScore evalText "SPEED" with
    | error e => rw [h1, h2, h3, h4, h5] at h; exact absurd h (by simp)
    | ok s5 =>
    rw [h1, h2, h3, h4, h5] at h
    simp only [Except.ok.injEq] at h
    obtain ⟨ha1, hb1⟩ := criterionScore_bounds _ _ _ h1
    obtain ⟨ha2, hb2⟩ := criterionScore_bounds _ _ _ h2
    obtain ⟨ha3, hb3⟩ := criterionScore_bounds _ _ _ h3
    obtain ⟨ha4, hb4⟩ := criterionScore_bounds _ _ _ h4
    obtain ⟨ha5, hb5⟩ := criterionScore_bounds _ _ _ h5
    have w1 : weightOf "FAILURE_COVERAGE" = 30 / 100 := rfl
    have w2 : weightOf "PATTERN_PRESERVATION" = 20 / 100 := rfl
    have w3 : weightOf "NO_HARDCODED" = 10 / 100 := rfl
    have w4 : weightOf "EFFICIENCY" = 25 / 100 := rfl
    have w5 : weightOf "SPEED" = 15 / 100 := rfl
    rw [w1, w2, w3, w4, w5] at h
    subst h
    constructor <;> nlinarith [ha1, hb1, ha2, hb2, ha3, hb3, ha4, hb4, ha5, hb5]

/-- A concrete well-formed judge response with all five criterion scores. -/
def sampleJudgeText : String :=
  "FAILURE_COVERAGE: 1 - ok\nPATTERN_PRESERVATION: 1 - ok\nNO_HARDCODED: 1 - ok\nEFFICIENCY: 1 - ok\nSPEED: 1 - ok"

/-- Helper: the score token "1" parses to the rational 1. -/
theorem parseFloatRun_one : parseFloatRun ('1' :: []) = some 1 := by
  unfold parseFloatRun
  rw [if_pos (by decide)]
  exact congrArg some (by
    show ((digitsVal ('1' :: []) : ℚ) +
      (digitsVal ([] : List Char) : ℚ) / (10 : ℚ) ^ (0 : ℕ)) = 1
    rw [show digitsVal ('1' :: []) = 1 from rfl,
      show digitsVal ([] : List Char) = 0 from rfl]
    norm_num)

/-- Helper: the token score 1 survives the clamp. -/
theorem scoreOfRun_one : scoreOfRun ('1' :: []) = Except.ok 1 := by
  unfold scoreOfRun
  rw [parseFloatRun_one]
  show Except.ok (clampScore 1) = Except.ok 1
  unfold clampScore
  rw [max_eq_right (by norm_num : (0 : ℚ) ≤ 1), min_self]

/-- Helper: on `sampleJudgeText` every criterion scores 1, and the weighted
combined score is exactly 1. -/
theorem combinedJudgeScore_sample :
    combinedJudgeScore sampleJudgeText.data = Except.ok 1 := by
  have c1 : criterionScore sampleJudgeText.data "FAILURE_COVERAGE" = Except.ok 1 := by
    unfold criterionScore
    rw [show searchScoreRun ("FAILURE_COVERAGE" : String).data sampleJudgeText.data =
      some ('1' :: []) from rfl]
    exact scoreOfRun_one
  have c2 : criterionScore sampleJudgeText.data "PATTERN_PRESERVATION" = Except.ok 1 := by
    unfold criterionScore
    rw [show searchScoreRun ("PATTERN_PRESERVATION" : String).data sampleJudgeText.data =
      some ('1' :: []) from rfl]
    exact scoreOfRun_one
  have c3 : criterionScore sampleJudgeText.data "NO_HARDCODED" = Except.ok 1 := by
    unfold criterionScore
    rw [show searchScoreRun ("NO_HARDCODED" : String).data sampleJudgeText.data =
      some ('1' :: []) from rfl]
    exact scoreOfRun_one
  have c4 : criterionScore sampleJudgeText.data "EFFICIENCY" = Except.ok 1 := by
    unfold criterionScore
    rw [show searchScoreRun ("EFFICIENCY" : String).data sampleJudgeText.data =
      some ('1' :: []) from rfl]
    exact scoreOfRun_one
  have c5 : criterionScore sampleJudgeText.data "SPEED" = Except.ok 1 := by
    unfold criterionScore
    rw [show searchScoreRun ("SPEED" : String).data sampleJudgeText.data =
      some ('1' :: []) from rfl]
    exact scoreOfRun_one
  unfold combinedJudgeScore
  rw [c1, c2, c3, c4, c5]
  show Except.ok ((1 : ℚ) * weightOf "FAILURE_COVERAGE" +
    1 * weightOf "PATTERN_PRESERVATION" + 1 * weightOf "NO_HARDCODED" +
    1 * weightOf "EFFICIENCY" + 1 * weightOf "SPEED") = Except.ok 1
  rw [show weightOf "FAILURE_COVERAGE" = 30 / 100 from rfl,
    show weightOf "PATTERN_PRESERVATION" = 20 / 100 from rfl,
    show weightOf "NO_HARDCODED" = 10 / 100 from rfl,
    show weightOf "EFFICIENCY" = 25 / 100 from rfl,
    show weightOf "SPEED" = 15 / 100 from rfl]
  exact congrArg Except.ok (by norm_num)

/-- C8 witness: the amended theorem applied to a judge response with no
FAILURE_COVERAGE line (the criterion defaults to 1/2) and to
`sampleJudgeText`, whose combined score 1 lies in `[0, 1]`. -/
theorem C8_judge_score_bounds_witness :
    criterionScore ("no criteria here").data "FAILURE_COVERAGE" =
      Except.ok (1 / 2) ∧
    (0 ≤ (1 : ℚ) ∧ (1 : ℚ) ≤ 1) :=
  ⟨(C8_judge_score_bounds ("no criteria here").data "FAILURE_COVERAGE" 0).1 rfl,
   (C8_judge_score_bounds sampleJudgeText.data "FAILURE_COVERAGE" 1).2.2.2
      combinedJudgeScore_sample⟩

end Challenge
